import Mathlib

/-
Verification of the discovery-and-matching core of the dating-app design
(Convex-style pseudocode in the repository's screen-to-function mapping
document, together with the drizzle/SQL schema sketches).

Modelling conventions:
* Timestamps are epoch milliseconds, modelled as `Int` (JS numbers are exact
  on this range).
* Document identifiers are modelled as `Nat`; the Convex id generator is
  modelled by a `nextId` counter in the database state, each insert returning
  the current counter value.
* `calculateAge` in the source uses the ECMAScript `Date` calendar accessors
  (`getFullYear`/`getMonth`/`getDate`).  These are modelled here by an
  explicit proleptic-Gregorian civil-date computation (`civilFromDays`,
  the standard era-based algorithm), with the time zone taken to be UTC.
  Month numbers here are 1-based; the source's 0-based months only ever
  appear in differences, which agree.
* `calculateDistance` in the source is an IEEE-754 floating-point haversine
  (trigonometric) computation.  Transcendental float arithmetic has no exact
  shallow embedding, so the distance function is a parameter
  `dist : Location → Location → ℚ` of the feed pipeline; every positive
  theorem below is proved for all `dist`.  Concrete scenarios place all users
  at identical coordinates, where the source's haversine returns exactly 0
  (all intermediate float operations are exact there), and instantiate
  `dist` with the constant-zero function `distZero`.
* A thrown error in a Convex mutation aborts the transaction; this is
  modelled by mutations returning `Except`, an error leaving the state
  unchanged (`recordSwipeState`).
-/

namespace DatingApp

/-! ### Calendar model (ECMAScript Date, UTC) -/

/-- Milliseconds per day. -/
def msPerDay : Int := 86400000

/-- Day number of a timestamp: floor of ms / 86400000 (ECMAScript Day(t)).
`Int` division `/` here is Euclidean division, which is floor division for the
positive divisor 86400000. -/
def dayOfTs (t : Int) : Int := t / msPerDay

/-- Era index of a shifted day number (eras of 146097 days = 400 years). -/
def eraOf (z : Int) : Int := (z + 719468) / 146097

/-- Day-of-era in [0, 146097). -/
def doeOf (z : Int) : Nat := ((z + 719468) % 146097).toNat

/-- Year-of-era in [0, 399] computed from the day-of-era. -/
def yoeOf (doe : Nat) : Nat := (doe - doe / 1460 + doe / 36524 - doe / 146096) / 365

/-- Day-of-year (March-based year) in [0, 365]. -/
def doyOf (doe : Nat) : Nat := doe - (365 * yoeOf doe + yoeOf doe / 4 - yoeOf doe / 100)

/-- March-based month index in [0, 11]. -/
def mpOf (doe : Nat) : Nat := (5 * doyOf doe + 2) / 153

/-- Civil month in [1, 12]. -/
def mOf (doe : Nat) : Nat := if mpOf doe < 10 then mpOf doe + 3 else mpOf doe - 9

/-- Civil day-of-month in [1, 31]. -/
def dayOf (doe : Nat) : Nat := doyOf doe - (153 * mpOf doe + 2) / 5 + 1

/-- Civil year within the era (0..400), including the January/February
adjustment of the March-based year. -/
def yInEra (doe : Nat) : Nat := if mOf doe ≤ 2 then yoeOf doe + 1 else yoeOf doe

/-- Proleptic-Gregorian civil date (year, month, day) of a day number
(days since 1970-01-01). -/
def civilFromDays (z : Int) : Int × Nat × Nat :=
  (400 * eraOf z + (yInEra (doeOf z) : Int), mOf (doeOf z), dayOf (doeOf z))

/-- Embedding of the source helper `calculateAge(birthDateTimestamp)`:
calendar-year difference between now and the birth date, decremented when the
birthday has not yet occurred this year.  The source reads the current time
inside the helper; here it is the explicit parameter `nowTs`. -/
def calculateAge (birthTs nowTs : Int) : Int :=
  let b := civilFromDays (dayOfTs birthTs)
  let n := civilFromDays (dayOfTs nowTs)
  let monthDiff : Int := (n.2.1 : Int) - (b.2.1 : Int)
  if monthDiff < 0 ∨ (monthDiff = 0 ∧ n.2.2 < b.2.2) then n.1 - b.1 - 1 else n.1 - b.1

/-! ### Data model (Convex schema, tables used by the core) -/

/-- A geographic coordinate.  The source stores JS numbers; scenarios here
use exactly representable values, modelled as rationals. -/
structure Location where
  latitude : ℚ
  longitude : ℚ
deriving DecidableEq, Repr

/-- A row of the `users` table (the fields the discovery/matching core reads). -/
structure User where
  id : Nat
  first_name : Option String
  birth_date : Option Int
  gender : Option String
  bio : Option String
  location : Option Location
  max_distance : Option ℚ
  age_min : Option Int
  age_max : Option Int
  show_me : Option String
deriving DecidableEq, Repr

/-- Swipe action: the `action` union of the `swipes` table. -/
inductive SwipeAction where
  | like
  | pass
deriving DecidableEq, Repr

/-- A row of the `swipes` table. -/
structure Swipe where
  id : Nat
  swiper_id : Nat
  swiped_id : Nat
  action : SwipeAction
  created_at : Int
deriving DecidableEq, Repr

/-- A row of the `matches` table. -/
structure MatchRec where
  id : Nat
  user1_id : Nat
  user2_id : Nat
  matched_at : Int
  is_active : Bool
  created_at : Int
deriving DecidableEq, Repr

/-- A row of the `messages` table. -/
structure Message where
  id : Nat
  match_id : Nat
  sender_id : Nat
  content : String
  message_type : String
  is_read : Bool
  sent_at : Int
deriving DecidableEq, Repr

/-- A row of the `notifications` table (fields written by `sendMessage`). -/
structure Notification where
  id : Nat
  user_id : Nat
  ntype : String
  related_id : Option Nat
  title : String
  message : String
  is_read : Bool
  created_at : Int
deriving DecidableEq, Repr

/-- The database state of the core, with the Convex id generator modelled as
a counter.  The `matches` table is named `matchRows` because `matches` is a
reserved word in Lean. -/
structure DB where
  users : List User
  swipes : List Swipe
  matchRows : List MatchRec
  messages : List Message
  notifications : List Notification
  nextId : Nat
deriving DecidableEq, Repr

/-! ### getDiscoveryFeed -/

/-- Milliseconds in the source's 365-day year: 365 * 24 * 60 * 60 * 1000. -/
def msPerYear365 : Int := 365 * 24 * 60 * 60 * 1000

/-- Preference defaults, as in the source: `currentUser.max_distance ?? 50`. -/
def defaultedMaxDistance (u : User) : ℚ := u.max_distance.getD 50

/-- Preference default `currentUser.age_min ?? 18`. -/
def defaultedAgeMin (u : User) : Int := u.age_min.getD 18

/-- Preference default `currentUser.age_max ?? 100`. -/
def defaultedAgeMax (u : User) : Int := u.age_max.getD 100

/-- Preference default `currentUser.show_me ?? "everyone"`. -/
def defaultedShowMe (u : User) : String := u.show_me.getD "everyone"

/-- The database-query filter of `getDiscoveryFeed`: birth date strictly
inside the 365-day-year window, not the requester, and a location present.
A missing `birth_date` fails the `gt` comparison (undefined sorts below all
numbers in Convex), so such users are excluded. -/
def potentialFilter (requester : User) (now : Int) (u : User) : Bool :=
  (match u.birth_date with
   | some b =>
       decide (now - defaultedAgeMax requester * msPerYear365 < b) &&
       decide (b < now - defaultedAgeMin requester * msPerYear365)
   | none => false) &&
  !(u.id == requester.id) && u.location.isSome

/-- The in-memory filter of `getDiscoveryFeed`: distance within the maximum,
then the show-me gender preference (case-insensitive, only when `show_me` is
not exactly "everyone"). -/
def prefsFilter (dist : Location → Location → ℚ) (reqLoc : Location)
    (requester : User) (u : User) : Bool :=
  match u.location with
  | none => false
  | some loc =>
      if dist reqLoc loc > defaultedMaxDistance requester then false
      else if !(defaultedShowMe requester == "everyone") then
        let userGender := u.gender.map String.toLower
        let pref := (defaultedShowMe requester).toLower
        if pref == "men" && !(userGender == some "male") then false
        else if pref == "women" && !(userGender == some "female") then false
        else true
      else true

/-- A candidate user annotated with the computed distance
(`{...user, distance}` in the source). -/
structure Ranked where
  user : User
  distance : ℚ
deriving DecidableEq, Repr

/-- Annotate a candidate with its distance from the requester.  The source
uses the non-null assertion `user.location!`; the filter guarantees a
location is present, so the `getD` default is unreachable. -/
def rankedOf (dist : Location → Location → ℚ) (reqLoc : Location) (u : User) : Ranked :=
  { user := u, distance := dist reqLoc (u.location.getD reqLoc) }

/-- The comparison of the source's `.sort((a, b) => a.distance - b.distance)`.
JS `Array.prototype.sort` is a stable sort; with this comparator it produces
the unique stable, distance-ascending reordering, which insertion sort with
the non-strict `≤` realises. -/
def rankedLE (a b : Ranked) : Prop := a.distance ≤ b.distance

instance : DecidableRel rankedLE := fun a b =>
  inferInstanceAs (Decidable (a.distance ≤ b.distance))

instance : IsTotal Ranked rankedLE := ⟨fun a b => le_total a.distance b.distance⟩

instance : IsTrans Ranked rankedLE := ⟨fun _ _ _ h1 h2 => le_trans h1 h2⟩

/-- The filtered, distance-annotated candidate pool, in users-table order
(before sorting). -/
def rankedPool (dist : Location → Location → ℚ) (users : List User)
    (requester : User) (now : Int) (reqLoc : Location) : List Ranked :=
  ((users.filter (potentialFilter requester now)).filter
      (prefsFilter dist reqLoc requester)).map (rankedOf dist reqLoc)

/-- The full ordered candidate list of `getDiscoveryFeed` before pagination:
pool sorted by distance, then users the requester already swiped on removed
(the source removes them after sorting, which preserves the order).
Returns `[]` when the requester has no location or no birth date (the JS
completeness check `!currentUser.location || !currentUser.birth_date`; a
birth date of exactly 0 is falsy in JS and also yields the empty feed). -/
def feedCandidates (dist : Location → Location → ℚ) (users : List User)
    (swipes : List Swipe) (requester : User) (now : Int) : List Ranked :=
  match requester.location, requester.birth_date with
  | some reqLoc, some b =>
      if b == 0 then []
      else
        let sorted := List.insertionSort rankedLE
          (rankedPool dist users requester now reqLoc)
        let swipedIds :=
          (swipes.filter (fun s => s.swiper_id == requester.id)).map
            (fun s => s.swiped_id)
        sorted.filter (fun ru => !(swipedIds.contains ru.user.id))
  | _, _ => []

/-- One entry of the discovery feed result. -/
structure FeedEntry where
  user_id : Nat
  first_name : Option String
  age : Option Int
  bio : Option String
  distance_km : ℚ
  photos : List String
deriving DecidableEq, Repr

/-- JS `Math.round`: nearest integer, halves toward positive infinity. -/
def jsRound (q : ℚ) : Int := ⌊q + 1 / 2⌋

/-- The source's one-decimal rounding `Math.round(distance * 10) / 10`. -/
def roundDist (d : ℚ) : ℚ := (jsRound (d * 10) : ℚ) / 10

/-- The output projection of `getDiscoveryFeed`.  JS truthiness makes the
age `null` when `birth_date` is 0 (`user.birth_date ? calculateAge(...) :
null`). -/
def projectEntry (now : Int) (ru : Ranked) : FeedEntry :=
  { user_id := ru.user.id
    first_name := ru.user.first_name
    age := match ru.user.birth_date with
           | some b => if b == 0 then none else some (calculateAge b now)
           | none => none
    bio := ru.user.bio
    distance_km := roundDist ru.distance
    photos := [] }

/-- Embedding of `getDiscoveryFeed` (the handler after the requester record
has been found; the authentication lookup itself is outside the core).
`slice(offset, offset + limit)` is `drop`/`take` for the natural-number
arguments the API uses. -/
def getDiscoveryFeed (dist : Location → Location → ℚ) (users : List User)
    (swipes : List Swipe) (requester : User) (now : Int)
    (limit offset : Nat) : List FeedEntry :=
  (((feedCandidates dist users swipes requester now).drop offset).take limit).map
    (projectEntry now)

/-- The constant-zero distance function: the value of the source's haversine
on identical coordinates (sin 0 = 0 makes every float step exact there).
Concrete scenarios below place all users at one coordinate. -/
def distZero : Location → Location → ℚ := fun _ _ => 0

/-! ### recordSwipe -/

/-- Errors a mutation of the core can throw.  `conflict` is the source's
"Swipe already recorded"; `notUnique` models a Convex `.unique()` call
finding more than one document (a runtime error). -/
inductive MutationError where
  | conflict
  | notUnique
deriving DecidableEq, Repr

deriving instance DecidableEq for Except

/-- Convex `.unique()`: none, exactly one, or an error when several documents
match. -/
def uniqueQuery (p : α → Bool) (l : List α) : Except MutationError (Option α) :=
  match l.filter p with
  | [] => .ok none
  | [a] => .ok (some a)
  | _ => .error .notUnique

/-- The `by_pair` index lookup of `recordSwipe`: the swipe (a, b) if present. -/
def swipeQueryPair (db : DB) (a b : Nat) : Except MutationError (Option Swipe) :=
  uniqueQuery (fun s => s.swiper_id == a && s.swiped_id == b) db.swipes

/-- The reverse-swipe lookup of `recordSwipe`: the swipe (b, a) with action
like, if present. -/
def reverseLikeQuery (db : DB) (a b : Nat) : Except MutationError (Option Swipe) :=
  uniqueQuery
    (fun s => s.swiper_id == b && s.swiped_id == a &&
      decide (s.action = SwipeAction.like)) db.swipes

/-- The `db.insert("swipes", ...)` write of `recordSwipe`: returns the new id
and the updated state. -/
def insertSwipeOp (db : DB) (now : Int) (a b : Nat) (action : SwipeAction) :
    Nat × DB :=
  (db.nextId,
   { db with
     swipes := db.swipes ++ [{ id := db.nextId, swiper_id := a, swiped_id := b,
                               action := action, created_at := now }]
     nextId := db.nextId + 1 })

/-- The `db.insert("matches", ...)` write of `recordSwipe`: user1 is the
swiper, user2 the swiped, active, timestamped now. -/
def insertMatchOp (db : DB) (now : Int) (a b : Nat) : Nat × DB :=
  (db.nextId,
   { db with
     matchRows := db.matchRows ++
       [{ id := db.nextId, user1_id := a, user2_id := b, matched_at := now,
          is_active := true, created_at := now }]
     nextId := db.nextId + 1 })

/-- The result record `{swipe_id, is_match, match_id}` of `recordSwipe`. -/
structure SwipeResult where
  swipe_id : Nat
  is_match : Bool
  match_id : Option Nat
deriving DecidableEq, Repr

/-- Embedding of the mutation `recordSwipe(swiper_id, swiped_id, action)`:
conflict check on the ordered pair, record the swipe, and (for a like) the
reverse-like lookup with match creation.  An error result models a thrown
error, which aborts the Convex transaction. -/
def recordSwipe (db : DB) (now : Int) (swiper_id swiped_id : Nat)
    (action : SwipeAction) : Except MutationError (SwipeResult × DB) :=
  match swipeQueryPair db swiper_id swiped_id with
  | .error e => .error e
  | .ok (some _) => .error .conflict
  | .ok none =>
      let (swipeId, db1) := insertSwipeOp db now swiper_id swiped_id action
      if action = SwipeAction.like then
        match reverseLikeQuery db1 swiper_id swiped_id with
        | .error e => .error e
        | .ok (some _) =>
            let (matchId, db2) := insertMatchOp db1 now swiper_id swiped_id
            .ok ({ swipe_id := swipeId, is_match := true,
                   match_id := some matchId }, db2)
        | .ok none =>
            .ok ({ swipe_id := swipeId, is_match := false, match_id := none }, db1)
      else
        .ok ({ swipe_id := swipeId, is_match := false, match_id := none }, db1)

/-- The state after a `recordSwipe` call: a thrown error rolls the
transaction back, leaving the state unchanged. -/
def recordSwipeState (db : DB) (now : Int) (swiper_id swiped_id : Nat)
    (action : SwipeAction) : DB :=
  match recordSwipe db now swiper_id swiped_id action with
  | .ok (_, db2) => db2
  | .error _ => db

/-! ### Interleaved execution of recordSwipe

The source performs check-then-insert-then-check as separate database
operations with no pair-level serialization (the SQL sketch runs them as
separate statements, and the matches unique index is on the ordered pair
only).  To examine the concurrency claim we split one `recordSwipe` call
into its atomic database operations and let two calls interleave. -/

/-- The program counter of one in-flight `recordSwipe` execution. -/
inductive CallState where
  | atCheck
  | atInsertSwipe
  | atReverseCheck (swipeId : Nat)
  | atInsertMatch (swipeId : Nat)
  | finished (r : SwipeResult)
  | errored (e : MutationError)
deriving DecidableEq, Repr

/-- One atomic database operation of an in-flight `recordSwipe` execution,
mirroring the operation order of `recordSwipe` itself. -/
def stepCall (now : Int) (swiper_id swiped_id : Nat) (action : SwipeAction) :
    DB × CallState → DB × CallState
  | (db, .atCheck) =>
      match swipeQueryPair db swiper_id swiped_id with
      | .error e => (db, .errored e)
      | .ok (some _) => (db, .errored .conflict)
      | .ok none => (db, .atInsertSwipe)
  | (db, .atInsertSwipe) =>
      let (sid, db1) := insertSwipeOp db now swiper_id swiped_id action
      if action = SwipeAction.like then (db1, .atReverseCheck sid)
      else (db1, .finished { swipe_id := sid, is_match := false, match_id := none })
  | (db, .atReverseCheck sid) =>
      match reverseLikeQuery db swiper_id swiped_id with
      | .error e => (db, .errored e)
      | .ok (some _) => (db, .atInsertMatch sid)
      | .ok none =>
          (db, .finished { swipe_id := sid, is_match := false, match_id := none })
  | (db, .atInsertMatch sid) =>
      let (mid, db1) := insertMatchOp db now swiper_id swiped_id
      (db1, .finished { swipe_id := sid, is_match := true, match_id := some mid })
  | (db, .finished r) => (db, .finished r)
  | (db, .errored e) => (db, .errored e)

/-- Run two concurrent `recordSwipe(a, b, like)` and `recordSwipe(b, a, like)`
executions under a schedule: `true` steps the first call, `false` the second.
Each call's own operations stay in program order. -/
def runSched (now : Int) (a b : Nat) (sched : List Bool) (init : DB) :
    DB × CallState × CallState :=
  sched.foldl
    (fun acc who =>
      if who then
        let s := stepCall now a b SwipeAction.like (acc.1, acc.2.1)
        (s.1, s.2, acc.2.2)
      else
        let s := stepCall now b a SwipeAction.like (acc.1, acc.2.2)
        (s.1, acc.2.1, s.2))
    (init, CallState.atCheck, CallState.atCheck)

/-! ### Messaging mutations -/

/-- Errors of `sendMessage`: the source's "Unauthorized to send message in
this conversation" and "Cannot message in inactive match". -/
inductive MessageError where
  | unauthorized
  | inactiveMatch
deriving DecidableEq, Repr

/-- Embedding of `sendMessage(match_id, sender_id, content, message_type)`
(the source defaults `message_type` to "text" at the argument level).
Participant check, active check, message insert, then the recipient
notification insert with the 50-character content preview. -/
def sendMessage (db : DB) (now : Int) (match_id sender_id : Nat)
    (content : String) (message_type : String) :
    Except MessageError (Nat × DB) :=
  match db.matchRows.find? (fun m => m.id == match_id) with
  | none => .error .unauthorized
  | some m =>
      if !(m.user1_id == sender_id) && !(m.user2_id == sender_id) then
        .error .unauthorized
      else if !m.is_active then
        .error .inactiveMatch
      else
        let messageId := db.nextId
        let db1 :=
          { db with
            messages := db.messages ++
              [({ id := messageId, match_id := match_id, sender_id := sender_id,
                  content := content, message_type := message_type,
                  is_read := false, sent_at := now } : Message)]
            nextId := db.nextId + 1 }
        let recipientId := if m.user1_id == sender_id then m.user2_id else m.user1_id
        let preview :=
          if content.length > 50 then (content.take 50).append "..." else content
        let db2 :=
          { db1 with
            notifications := db1.notifications ++
              [({ id := db1.nextId, user_id := recipientId, ntype := "new_message",
                  related_id := some messageId, title := "New Message",
                  message := preview, is_read := false, created_at := now } :
                 Notification)]
            nextId := db1.nextId + 1 }
        .ok (messageId, db2)

/-- Embedding of `markMessageAsRead(message_id)`: `db.patch(message_id,
{is_read: true})`, an unconditional single-field update of that document. -/
def markMessageAsRead (db : DB) (message_id : Nat) : DB :=
  { db with
    messages := db.messages.map
      (fun m => if m.id == message_id then { m with is_read := true } else m) }

/-- Embedding of `markConversationAsRead(match_id, user_id)`: finds the
match, computes the other participant, and marks that participant's unread
messages in the conversation as read. -/
def markConversationAsRead (db : DB) (match_id user_id : Nat) : DB :=
  match db.matchRows.find? (fun m => m.id == match_id) with
  | none => db
  | some m =>
      let otherUserId := if m.user1_id == user_id then m.user2_id else m.user1_id
      { db with
        messages := db.messages.map
          (fun msg =>
            if msg.match_id == match_id && msg.is_read == false &&
                msg.sender_id == otherUserId then
              { msg with is_read := true }
            else msg) }

/-! ### Concrete scenario data

All scenario users share one coordinate, so every distance the source's
haversine computes is exactly 0 and `distZero` is its value there.
`tNow` is day 20737 (2026-10-11); birth day 11611 is 2001-10-16, whose
calendar age at `tNow` is 24 (the 25th birthday is five days away). -/

/-- The empty database. -/
def emptyDB : DB :=
  { users := [], swipes := [], matchRows := [], messages := [],
    notifications := [], nextId := 0 }

/-- The shared coordinate of the scenario users. -/
def loc0 : Location := { latitude := 40, longitude := -74 }

/-- The scenario clock: day 20737, i.e. 2026-10-11 UTC. -/
def tNow : Int := 20737 * 86400000

/-- Scenario requester: complete profile, max_distance 50, age range
[25, 35], show_me "everyone". -/
def alice : User :=
  { id := 1, first_name := some "Alice", birth_date := some (10957 * 86400000),
    gender := some "female", bio := none, location := some loc0,
    max_distance := some 50, age_min := some 25, age_max := some 35,
    show_me := some "everyone" }

/-- A scenario candidate with the given id, born on day 11611 (2001-10-16),
complete profile, default preferences. -/
def mkCand (i : Nat) : User :=
  { id := i, first_name := some "Cand", birth_date := some (11611 * 86400000),
    gender := some "male", bio := none, location := some loc0,
    max_distance := none, age_min := none, age_max := none, show_me := none }

/-- A requester whose profile has no coordinate. -/
def carol : User := { alice with location := none }

/-- Candidate pool for the age scenario: the requester and one candidate. -/
def usersAge : List User := [alice, mkCand 2]

/-- Candidate pool with an equal-distance tie listed in the order
id 3 before id 2. -/
def usersTie : List User := [alice, mkCand 3, mkCand 2]

/-- Candidate pool with five eligible candidates. -/
def usersFive : List User :=
  [alice, mkCand 2, mkCand 3, mkCand 4, mkCand 5, mkCand 6]

/-- The feed entry the age scenario produces: candidate 2 reported with
calendar age 24 although the requester's age_min is 25.  The distance field
is written as the pipeline computes it (rational arithmetic is opaque to
kernel reduction, so the field is kept in this syntactic form). -/
def cxEntry : FeedEntry :=
  { user_id := 2, first_name := some "Cand", age := some 24, bio := none,
    distance_km := roundDist (distZero loc0 ((mkCand 2).location.getD loc0)),
    photos := [] }

/-- A database with an active match (1, 2) as id 0 and an inactive match
(3, 4) as id 1. -/
def dbMatches : DB :=
  { emptyDB with
    matchRows := [{ id := 0, user1_id := 1, user2_id := 2, matched_at := 0,
                    is_active := true, created_at := 0 },
                  { id := 1, user1_id := 3, user2_id := 4, matched_at := 0,
                    is_active := false, created_at := 0 }]
    nextId := 2 }

/-- A database with the active match (1, 2) and two unread messages in it,
one from each participant. -/
def dbMsgs : DB :=
  { emptyDB with
    matchRows := [{ id := 0, user1_id := 1, user2_id := 2, matched_at := 0,
                    is_active := true, created_at := 0 }]
    messages := [{ id := 3, match_id := 0, sender_id := 1, content := "hi",
                   message_type := "text", is_read := false, sent_at := 3 },
                 { id := 4, match_id := 0, sender_id := 2, content := "yo",
                   message_type := "text", is_read := false, sent_at := 4 }]
    nextId := 5 }

/-! ### Calendar lemmas

The only calendar fact the claims need: 12775 days (35 times 365) can never
span 36 or more calendar years, because 35 calendar years plus one day is at
least 12784 days.  It is proved from linear bounds on the civil-year
computation, checked by integer arithmetic over one 400-year era. -/

/-- The January/February adjustment in terms of the March-based month index. -/
theorem yInEra_eq (doe : Nat) :
    yInEra doe = if 10 ≤ mpOf doe ∧ mpOf doe ≤ 11 then yoeOf doe + 1 else yoeOf doe := by
  unfold yInEra mOf
  by_cases h : mpOf doe < 10
  · have h1 : ¬ (mpOf doe + 3 ≤ 2) := by omega
    have h2 : ¬ (10 ≤ mpOf doe ∧ mpOf doe ≤ 11) := by omega
    simp only [if_pos h, if_neg h1, if_neg h2]
  · by_cases h2 : mpOf doe ≤ 11
    · have ha : mpOf doe - 9 ≤ 2 := by omega
      have hb : 10 ≤ mpOf doe ∧ mpOf doe ≤ 11 := by omega
      simp only [if_neg h, if_pos ha, if_pos hb]
    · have ha : ¬ (mpOf doe - 9 ≤ 2) := by omega
      have hb : ¬ (10 ≤ mpOf doe ∧ mpOf doe ≤ 11) := by omega
      simp only [if_neg h, if_neg ha, if_neg hb]

/-- Within one era, 400 times the day-of-era stays within a fixed window of
146097 times the civil year: years average 365.2425 days. -/
theorem gauge_bounds (doe : Nat) (h : doe < 146097) :
    -24496 ≤ 400 * (doe : Int) - 146097 * (yInEra doe : Int) ∧
      400 * (doe : Int) - 146097 * (yInEra doe : Int) ≤ 122396 := by
  rw [yInEra_eq]
  unfold mpOf doyOf yoeOf
  split <;> omega

/-- Era/day-of-era decomposition of a day number. -/
theorem doeOf_decomp (z : Int) :
    (doeOf z : Int) = (z + 719468) - 146097 * eraOf z ∧ doeOf z < 146097 := by
  unfold doeOf eraOf
  omega

/-- The gauge window transfers to arbitrary day numbers: eras are exactly
146097 days and exactly 400 years. -/
theorem gauge_bounds_global (z : Int) :
    -24496 ≤ 400 * (z + 719468) - 146097 * (civilFromDays z).1 ∧
      400 * (z + 719468) - 146097 * (civilFromDays z).1 ≤ 122396 := by
  obtain ⟨hd, hlt⟩ := doeOf_decomp z
  have hg := gauge_bounds (doeOf z) hlt
  have hy : (civilFromDays z).1 = 400 * eraOf z + (yInEra (doeOf z) : Int) := rfl
  rw [hy]
  omega

/-- Thirty-five 365-day years never span 36 calendar years: a birth
timestamp less than 12775 days before now has calendar age at most 35. -/
theorem calculateAge_le_of_window (b now : Int)
    (h : now - 12775 * 86400000 < b) : calculateAge b now ≤ 35 := by
  have hb := gauge_bounds_global (dayOfTs b)
  have hn := gauge_bounds_global (dayOfTs now)
  have hday : dayOfTs now - dayOfTs b ≤ 12775 := by
    unfold dayOfTs msPerDay
    omega
  unfold calculateAge
  dsimp only
  split <;> omega

/-! ### Swipe databases for the witnesses -/

/-- A database holding the single swipe (2, 1, like): user 2 already liked
user 1. -/
def dbRevLike : DB :=
  { emptyDB with
    swipes := [{ id := 0, swiper_id := 2, swiped_id := 1,
                 action := SwipeAction.like, created_at := 5 }]
    nextId := 1 }

/-- A database holding the single swipe (1, 2, like). -/
def dbFwdLike : DB :=
  { emptyDB with
    swipes := [{ id := 0, swiper_id := 1, swiped_id := 2,
                 action := SwipeAction.like, created_at := 5 }]
    nextId := 1 }

/-! ### Claim C1 -/

/-- C1: for distinct users A, B with no existing swipe (A, B): a like with an
existing reverse like (B, A, like) records the swipe, appends exactly one new
active match between A and B, and returns is_match true with the new match
id; a like without a reverse like records the swipe, creates no match, and
returns is_match false with match_id null; a pass records the swipe and never
creates a match.  The uniqueness hypothesis reflects the swipes-table
invariant (at most one swipe per ordered pair) that the source's `.unique()`
call relies on. -/
theorem recordSwipe_mutual_like_spec (db : DB) (now : Int) (A B : Nat)
    (hAB : A ≠ B)
    (hNoSwipe : ∀ s ∈ db.swipes, ¬ (s.swiper_id = A ∧ s.swiped_id = B))
    (hRevUnique :
      (db.swipes.filter (fun s => s.swiper_id == B && s.swiped_id == A &&
        decide (s.action = SwipeAction.like))).length ≤ 1) :
    ((∃ s ∈ db.swipes,
        s.swiper_id = B ∧ s.swiped_id = A ∧ s.action = SwipeAction.like) →
      recordSwipe db now A B SwipeAction.like =
        .ok ({ swipe_id := db.nextId, is_match := true,
               match_id := some (db.nextId + 1) },
          { db with
            swipes := db.swipes ++
              [{ id := db.nextId, swiper_id := A, swiped_id := B,
                 action := SwipeAction.like, created_at := now }]
            matchRows := db.matchRows ++
              [{ id := db.nextId + 1, user1_id := A, user2_id := B,
                 matched_at := now, is_active := true, created_at := now }]
            nextId := db.nextId + 2 })) ∧
    ((¬ ∃ s ∈ db.swipes,
        s.swiper_id = B ∧ s.swiped_id = A ∧ s.action = SwipeAction.like) →
      recordSwipe db now A B SwipeAction.like =
        .ok ({ swipe_id := db.nextId, is_match := false, match_id := none },
          { db with
            swipes := db.swipes ++
              [{ id := db.nextId, swiper_id := A, swiped_id := B,
                 action := SwipeAction.like, created_at := now }]
            nextId := db.nextId + 1 })) ∧
    (recordSwipe db now A B SwipeAction.pass =
      .ok ({ swipe_id := db.nextId, is_match := false, match_id := none },
        { db with
          swipes := db.swipes ++
            [{ id := db.nextId, swiper_id := A, swiped_id := B,
               action := SwipeAction.pass, created_at := now }]
          nextId := db.nextId + 1 })) := by
  have hpair : swipeQueryPair db A B = Except.ok none := by
    unfold swipeQueryPair uniqueQuery
    have h0 : db.swipes.filter (fun s => s.swiper_id == A && s.swiped_id == B) = [] := by
      rw [List.filter_eq_nil_iff]
      intro s hs
      simp only [Bool.and_eq_true, beq_iff_eq]
      exact fun h => hNoSwipe s hs h
    rw [h0]
  have hb : (A == B) = false := beq_eq_false_iff_ne.mpr hAB
  refine ⟨?_, ?_, ?_⟩
  · intro hRev
    obtain ⟨s, hs, h1, h2, h3⟩ := hRev
    have hsmem : s ∈ db.swipes.filter
        (fun s => s.swiper_id == B && s.swiped_id == A &&
          decide (s.action = SwipeAction.like)) := by
      rw [List.mem_filter]
      exact ⟨hs, by simp [h1, h2, h3]⟩
    have hlen1 : (db.swipes.filter
        (fun s => s.swiper_id == B && s.swiped_id == A &&
          decide (s.action = SwipeAction.like))).length = 1 := by
      have hp : 0 < (db.swipes.filter
          (fun s => s.swiper_id == B && s.swiped_id == A &&
            decide (s.action = SwipeAction.like))).length :=
        List.length_pos.mpr (List.ne_nil_of_mem hsmem)
      omega
    obtain ⟨a, ha⟩ := List.length_eq_one.mp hlen1
    simp only [recordSwipe, hpair, insertSwipeOp, insertMatchOp,
      reverseLikeQuery, uniqueQuery, List.filter_append, ha,
      List.filter_singleton, hb, Bool.false_and, Bool.and_false, cond_false,
      List.append_nil, eq_self_iff_true, if_true]
  · intro hNoRev
    have h0 : db.swipes.filter
        (fun s => s.swiper_id == B && s.swiped_id == A &&
          decide (s.action = SwipeAction.like)) = [] := by
      rw [List.filter_eq_nil_iff]
      intro s hs
      simp only [Bool.and_eq_true, beq_iff_eq, decide_eq_true_eq]
      intro h
      exact hNoRev ⟨s, hs, h.1.1, h.1.2, h.2⟩
    simp only [recordSwipe, hpair, insertSwipeOp,
      reverseLikeQuery, uniqueQuery, List.filter_append, h0,
      List.filter_singleton, hb, Bool.false_and, Bool.and_false, cond_false,
      List.append_nil, eq_self_iff_true, if_true]
  · simp only [recordSwipe, hpair, insertSwipeOp]
    rfl

/-- Witness for C1 at a concrete input: user 2 already liked user 1, so
user 1 liking user 2 creates the match (1, 2). -/
theorem recordSwipe_mutual_like_spec_witness :
    recordSwipe dbRevLike 9 1 2 SwipeAction.like =
      .ok ({ swipe_id := 1, is_match := true, match_id := some 2 },
        { dbRevLike with
          swipes := dbRevLike.swipes ++
            [{ id := 1, swiper_id := 1, swiped_id := 2,
               action := SwipeAction.like, created_at := 9 }]
          matchRows := [{ id := 2, user1_id := 1, user2_id := 2,
                          matched_at := 9, is_active := true, created_at := 9 }]
          nextId := 3 }) :=
  (recordSwipe_mutual_like_spec dbRevLike 9 1 2 (by decide) (by decide)
    (by decide)).1 (by decide)

/-! ### Claim C2 -/

/-- C2: when a swipe (A, B) already exists, a second `recordSwipe(A, B, _)`
fails with the Conflict error regardless of the action, and — the thrown
error aborting the transaction — the state is unchanged: no swipe is
recorded and no match is created.  The uniqueness hypothesis is the
swipes-table invariant (at most one swipe per ordered pair). -/
theorem recordSwipe_duplicate_conflict (db : DB) (now : Int) (A B : Nat)
    (action : SwipeAction)
    (hEx : ∃ s ∈ db.swipes, s.swiper_id = A ∧ s.swiped_id = B)
    (hUnique :
      (db.swipes.filter (fun s => s.swiper_id == A && s.swiped_id == B)).length ≤ 1) :
    recordSwipe db now A B action = .error .conflict ∧
      recordSwipeState db now A B action = db := by
  obtain ⟨s, hs, h1, h2⟩ := hEx
  have hsmem : s ∈ db.swipes.filter (fun s => s.swiper_id == A && s.swiped_id == B) := by
    rw [List.mem_filter]
    exact ⟨hs, by simp [h1, h2]⟩
  have hlen1 : (db.swipes.filter
      (fun s => s.swiper_id == A && s.swiped_id == B)).length = 1 := by
    have hp : 0 < (db.swipes.filter
        (fun s => s.swiper_id == A && s.swiped_id == B)).length :=
      List.length_pos.mpr (List.ne_nil_of_mem hsmem)
    omega
  obtain ⟨a, ha⟩ := List.length_eq_one.mp hlen1
  have hq : swipeQueryPair db A B = Except.ok (some a) := by
    unfold swipeQueryPair uniqueQuery
    rw [ha]
  constructor
  · simp only [recordSwipe, hq]
  · unfold recordSwipeState
    simp only [recordSwipe, hq]

/-- Witness for C2 at a concrete input: the swipe (1, 2) exists, so a second
call with action pass fails with Conflict and changes nothing. -/
theorem recordSwipe_duplicate_conflict_witness :
    recordSwipe dbFwdLike 9 1 2 SwipeAction.pass = .error .conflict ∧
      recordSwipeState dbFwdLike 9 1 2 SwipeAction.pass = dbFwdLike :=
  recordSwipe_duplicate_conflict dbFwdLike 9 1 2 SwipeAction.pass
    (by decide) (by decide)

/-! ### Claim C3 -/

/-- C3 (defect witnessed): under the interleaving where both executions pass
their existence checks before either insert lands — each call's own
operations in program order — both reverse-swipe lookups see the other's
like and two match records are created for the unordered pair, both calls
reporting is_match true.  The schedule is check(A), check(B), insert-swipe(A),
insert-swipe(B), reverse-check(A), insert-match(A), reverse-check(B),
insert-match(B).  The drizzle unique index on the ordered pair (user1_id,
user2_id) does not reject the second insert, since the rows are (1, 2) and
(2, 1). -/
theorem recordSwipe_race_two_matches :
    (runSched 0 1 2 [true, false, true, false, true, true, false, false]
        emptyDB).1.matchRows.map (fun m => (m.user1_id, m.user2_id, m.is_active)) =
      [(1, 2, true), (2, 1, true)] ∧
    ((runSched 0 1 2 [true, false, true, false, true, true, false, false]
        emptyDB).1.matchRows.filter (fun m =>
          (m.user1_id == 1 && m.user2_id == 2) ||
          (m.user1_id == 2 && m.user2_id == 1))).length = 2 ∧
    (runSched 0 1 2 [true, false, true, false, true, true, false, false]
        emptyDB).2.1 =
      CallState.finished { swipe_id := 0, is_match := true, match_id := some 2 } ∧
    (runSched 0 1 2 [true, false, true, false, true, true, false, false]
        emptyDB).2.2 =
      CallState.finished { swipe_id := 1, is_match := true, match_id := some 3 } := by
  decide

/-- A `.unique()` query can only fail with the not-unique error. -/
theorem uniqueQuery_error (p : Swipe → Bool) (l : List Swipe)
    (e : MutationError) (h : uniqueQuery p l = .error e) :
    e = .notUnique := by
  unfold uniqueQuery at h
  cases hf : List.filter p l with
  | nil =>
      rw [hf] at h
      exact absurd h (by simp)
  | cons x t =>
      cases t with
      | nil =>
          rw [hf] at h
          exact absurd h (by simp)
      | cons y t2 =>
          rw [hf] at h
          exact (Except.error.inj h).symm

/-- Fidelity of the step machine: run without interleaving, the four atomic
operations of one `recordSwipe` call compute exactly the transactional
`recordSwipe` — on a success, and on the conflict error (which happens
before any write, so rollback changes nothing). -/
theorem stepCall_refines_recordSwipe (db : DB) (now : Int) (a b : Nat)
    (act : SwipeAction) :
    (∀ r db2, recordSwipe db now a b act = .ok (r, db2) →
      (stepCall now a b act)^[4] (db, CallState.atCheck) =
        (db2, CallState.finished r)) ∧
    (recordSwipe db now a b act = .error .conflict →
      (stepCall now a b act)^[4] (db, CallState.atCheck) =
        (db, CallState.errored .conflict)) := by
  have hit : (stepCall now a b act)^[4] (db, CallState.atCheck) =
      stepCall now a b act (stepCall now a b act (stepCall now a b act
        (stepCall now a b act (db, CallState.atCheck)))) := rfl
  constructor
  · intro r db2 hok
    unfold recordSwipe at hok
    rw [hit]
    cases hq : swipeQueryPair db a b with
    | error e =>
        rw [hq] at hok
        exact absurd hok (by simp)
    | ok osw =>
        cases osw with
        | some s =>
            rw [hq] at hok
            exact absurd hok (by simp)
        | none =>
            rw [hq] at hok
            dsimp only at hok
            have hst1 : stepCall now a b act (db, CallState.atCheck) =
                (db, CallState.atInsertSwipe) := by
              unfold stepCall
              dsimp only
              rw [hq]
            rw [hst1]
            by_cases hact : act = SwipeAction.like
            · subst hact
              rw [if_pos rfl] at hok
              have hst2 : stepCall now a b SwipeAction.like
                  (db, CallState.atInsertSwipe) =
                  ((insertSwipeOp db now a b SwipeAction.like).2,
                   CallState.atReverseCheck
                     (insertSwipeOp db now a b SwipeAction.like).1) := rfl
              rw [hst2]
              cases hr : reverseLikeQuery
                  (insertSwipeOp db now a b SwipeAction.like).2 a b with
              | error e =>
                  rw [hr] at hok
                  exact absurd hok (by simp)
              | ok orev =>
                  cases orev with
                  | some s2 =>
                      rw [hr] at hok
                      dsimp only at hok
                      have h := Except.ok.inj hok
                      have hst3 : stepCall now a b SwipeAction.like
                          ((insertSwipeOp db now a b SwipeAction.like).2,
                           CallState.atReverseCheck
                             (insertSwipeOp db now a b SwipeAction.like).1) =
                          ((insertSwipeOp db now a b SwipeAction.like).2,
                           CallState.atInsertMatch
                             (insertSwipeOp db now a b SwipeAction.like).1) := by
                        unfold stepCall
                        dsimp only
                        rw [hr]
                      injection h with h1 h2
                      rw [hst3, ← h1, ← h2]
                      rfl
                  | none =>
                      rw [hr] at hok
                      dsimp only at hok
                      have h := Except.ok.inj hok
                      have hst3 : stepCall now a b SwipeAction.like
                          ((insertSwipeOp db now a b SwipeAction.like).2,
                           CallState.atReverseCheck
                             (insertSwipeOp db now a b SwipeAction.like).1) =
                          ((insertSwipeOp db now a b SwipeAction.like).2,
                           CallState.finished
                             { swipe_id :=
                                 (insertSwipeOp db now a b SwipeAction.like).1,
                               is_match := false, match_id := none }) := by
                        unfold stepCall
                        dsimp only
                        rw [hr]
                      injection h with h1 h2
                      rw [hst3, ← h1, ← h2]
                      rfl
            · rw [if_neg hact] at hok
              have h := Except.ok.inj hok
              have hst2 : stepCall now a b act (db, CallState.atInsertSwipe) =
                  ((insertSwipeOp db now a b act).2,
                   CallState.finished
                     { swipe_id := (insertSwipeOp db now a b act).1,
                       is_match := false, match_id := none }) := by
                unfold stepCall
                dsimp only
                rw [if_neg hact]
              injection h with h1 h2
              rw [hst2, ← h1, ← h2]
              rfl
  · intro hc
    unfold recordSwipe at hc
    rw [hit]
    cases hq : swipeQueryPair db a b with
    | error e =>
        rw [hq] at hc
        have he : e = MutationError.conflict := Except.error.inj hc
        have hst1 : stepCall now a b act (db, CallState.atCheck) =
            (db, CallState.errored e) := by
          unfold stepCall
          dsimp only
          rw [hq]
        rw [hst1, he]
        rfl
    | ok osw =>
        cases osw with
        | some s =>
            have hst1 : stepCall now a b act (db, CallState.atCheck) =
                (db, CallState.errored .conflict) := by
              unfold stepCall
              dsimp only
              rw [hq]
            rw [hst1]
            rfl
        | none =>
            exfalso
            rw [hq] at hc
            dsimp only at hc
            by_cases hact : act = SwipeAction.like
            · subst hact
              rw [if_pos rfl] at hc
              cases hr : reverseLikeQuery
                  (insertSwipeOp db now a b SwipeAction.like).2 a b with
              | error e =>
                  rw [hr] at hc
                  have h1 : e = MutationError.conflict := Except.error.inj hc
                  have h2 : e = MutationError.notUnique := by
                    unfold reverseLikeQuery at hr
                    exact uniqueQuery_error _ _ _ hr
                  rw [h1] at h2
                  exact MutationError.noConfusion h2
              | ok orev =>
                  cases orev with
                  | some s2 =>
                      rw [hr] at hc
                      dsimp only at hc
                      exact absurd hc (by simp)
                  | none =>
                      rw [hr] at hc
                      exact absurd hc (by simp)
            · rw [if_neg hact] at hc
              exact absurd hc (by simp)

/-- Fidelity of the step machine: the fully serialized schedule (all of
call A's operations, then all of call B's) equals composing the two
transactional `recordSwipe` calls, and creates exactly one match — the
defect of `recordSwipe_race_two_matches` is the interleaving, not the
decomposition into steps. -/
theorem runSched_serial_agrees :
    (runSched 0 1 2 [true, true, true, true, false, false, false, false]
        emptyDB).1 =
      recordSwipeState (recordSwipeState emptyDB 0 1 2 SwipeAction.like) 0 2 1
        SwipeAction.like ∧
    (runSched 0 1 2 [true, true, true, true, false, false, false, false]
        emptyDB).1.matchRows.map (fun m => (m.user1_id, m.user2_id)) =
      [(2, 1)] := by
  decide

/-! ### Claim C4 -/

/-- C4 (defect witnessed): `recordSwipe` never checks that the swiper and the
swiped user differ.  A self-like `recordSwipe(7, 7, like)` finds its own
just-inserted swipe as the reverse like and creates the match (7, 7) —
violating the distinct-participants invariant that the SQL schema records as
CHECK (user1_id != user2_id). -/
theorem recordSwipe_self_like_self_match :
    recordSwipe emptyDB 0 7 7 SwipeAction.like =
      .ok ({ swipe_id := 0, is_match := true, match_id := some 1 },
        { emptyDB with
          swipes := [{ id := 0, swiper_id := 7, swiped_id := 7,
                       action := SwipeAction.like, created_at := 0 }]
          matchRows := [{ id := 1, user1_id := 7, user2_id := 7,
                          matched_at := 0, is_active := true, created_at := 0 }]
          nextId := 2 }) ∧
    ∀ m ∈ (recordSwipeState emptyDB 0 7 7 SwipeAction.like).matchRows,
      m.user1_id = m.user2_id := by
  decide

/-! ### Claim C5 -/

/-- C5: a requester whose profile lacks a coordinate or lacks a birth date
gets the empty feed for every limit and offset.  The embedded handler is
total — the incomplete-profile case is the early return of the empty list,
not an exception. -/
theorem getDiscoveryFeed_incomplete_profile_empty
    (dist : Location → Location → ℚ) (users : List User) (swipes : List Swipe)
    (requester : User) (now : Int) (limit offset : Nat)
    (h : requester.location = none ∨ requester.birth_date = none) :
    getDiscoveryFeed dist users swipes requester now limit offset = [] := by
  unfold getDiscoveryFeed feedCandidates
  rcases hl : requester.location with _ | reqLoc <;>
    rcases hb : requester.birth_date with _ | b <;>
    simp_all

/-- Witness for C5: a requester with no coordinate gets the empty feed. -/
theorem getDiscoveryFeed_incomplete_profile_empty_witness :
    getDiscoveryFeed distZero usersAge [] carol tNow 5 0 = [] :=
  getDiscoveryFeed_incomplete_profile_empty distZero usersAge [] carol tNow 5 0
    (Or.inl rfl)

/-! ### Claim C6 -/

/-- Every member of the full candidate list is a user from the table whose
birth date lies strictly inside the source's 365-day-year window. -/
theorem mem_feedCandidates (dist : Location → Location → ℚ) (users : List User)
    (swipes : List Swipe) (requester : User) (now : Int) (ru : Ranked)
    (hmem : ru ∈ feedCandidates dist users swipes requester now) :
    ru.user ∈ users ∧ ∃ b, ru.user.birth_date = some b ∧
      now - defaultedAgeMax requester * msPerYear365 < b ∧
      b < now - defaultedAgeMin requester * msPerYear365 := by
  unfold feedCandidates at hmem
  rcases hl : requester.location with _ | reqLoc <;>
    rcases hb0 : requester.birth_date with _ | b0 <;>
    simp only [hl, hb0] at hmem
  · exact absurd hmem (List.not_mem_nil ru)
  · exact absurd hmem (List.not_mem_nil ru)
  · exact absurd hmem (List.not_mem_nil ru)
  · split at hmem
    · exact absurd hmem (List.not_mem_nil ru)
    · have h1 : ru ∈ List.insertionSort rankedLE
          (rankedPool dist users requester now reqLoc) :=
        (List.mem_filter.mp hmem).1
      have h2 : ru ∈ rankedPool dist users requester now reqLoc :=
        (List.mem_insertionSort rankedLE).mp h1
      unfold rankedPool at h2
      obtain ⟨u, hu, hru⟩ := List.mem_map.mp h2
      have hu1 := List.mem_filter.mp hu
      have hu2 := List.mem_filter.mp hu1.1
      have huser : ru.user = u := by
        rw [← hru]
        rfl
      have hcond := hu2.2
      unfold potentialFilter at hcond
      rcases hub : u.birth_date with _ | b
      · rw [hub] at hcond
        simp at hcond
      · rw [hub] at hcond
        simp only [Bool.and_eq_true, decide_eq_true_eq] at hcond
        exact ⟨huser ▸ hu2.1, b, huser ▸ hub, hcond.1.1.1, hcond.1.1.2⟩

/-- C6 (amended): every candidate returned by `getDiscoveryFeed` has a birth
date strictly inside the window (now − age_max·365 days, now − age_min·365
days) — the source filters on this 365-day-per-year approximation with
exclusive bounds, not on the inclusive calendar-age interval — and the
reported age is `calculateAge` of that birth date; with age_max = 35 the
reported age is at most 35, so a candidate aged 36 never appears.  The
calendar age of a returned candidate can, however, be age_min − 1 (see the
counterexample), so the original inclusive bound [age_min, age_max] fails. -/
theorem getDiscoveryFeed_birth_window (dist : Location → Location → ℚ)
    (users : List User) (swipes : List Swipe) (requester : User) (now : Int)
    (limit offset : Nat) (e : FeedEntry)
    (he : e ∈ getDiscoveryFeed dist users swipes requester now limit offset) :
    ∃ u ∈ users, e.user_id = u.id ∧ ∃ b, u.birth_date = some b ∧
      (now - defaultedAgeMax requester * msPerYear365 < b ∧
       b < now - defaultedAgeMin requester * msPerYear365) ∧
      ∀ a, e.age = some a → a = calculateAge b now ∧
        (requester.age_max = some 35 → a ≤ 35) := by
  unfold getDiscoveryFeed at he
  obtain ⟨ru, hru, hproj⟩ := List.mem_map.mp he
  have hcand : ru ∈ feedCandidates dist users swipes requester now :=
    List.mem_of_mem_drop (List.mem_of_mem_take hru)
  obtain ⟨humem, b, hb, hw1, hw2⟩ :=
    mem_feedCandidates dist users swipes requester now ru hcand
  refine ⟨ru.user, humem, ?_, b, hb, ⟨hw1, hw2⟩, ?_⟩
  · rw [← hproj]
    rfl
  · intro a ha
    rw [← hproj] at ha
    unfold projectEntry at ha
    rw [hb] at ha
    simp only at ha
    rcases hz : (b == 0) with _ | _
    · rw [hz] at ha
      simp only [Bool.false_eq_true, if_false, Option.some.injEq] at ha
      constructor
      · exact ha.symm
      · intro h35
        have hmax : defaultedAgeMax requester = 35 := by
          rw [defaultedAgeMax, h35]
          rfl
        rw [hmax] at hw1
        have h1 : now - 12775 * 86400000 < b := by
          unfold msPerYear365 at hw1
          omega
        rw [← ha]
        exact calculateAge_le_of_window b now h1
    · rw [hz] at ha
      simp at ha

/-- Counterexample for C6 as stated: with the requester's age range
[25, 35], the feed returns candidate 2 with reported calendar age 24
(born 2001-10-16, queried on 2026-10-11: the 25th birthday has not yet
occurred, but the birth date clears the 25·365-day cutoff by leap days). -/
theorem getDiscoveryFeed_age_below_min_cx :
    (getDiscoveryFeed distZero usersAge [] alice tNow 20 0).map
      (fun e => (e.user_id, e.age)) = [(2, some 24)] ∧
    alice.age_min = some 25 ∧ alice.age_max = some 35 ∧
    ¬ (25 ≤ (24 : Int)) := by
  decide

/-- Witness for C6 (amended) at the concrete scenario entry. -/
theorem getDiscoveryFeed_birth_window_witness :
    ∃ u ∈ usersAge, cxEntry.user_id = u.id ∧ ∃ b, u.birth_date = some b ∧
      (tNow - defaultedAgeMax alice * msPerYear365 < b ∧
       b < tNow - defaultedAgeMin alice * msPerYear365) ∧
      ∀ a, cxEntry.age = some a → a = calculateAge b tNow ∧
        (alice.age_max = some 35 → a ≤ 35) :=
  getDiscoveryFeed_birth_window distZero usersAge [] alice tNow 20 0 cxEntry
    (by
      have h : getDiscoveryFeed distZero usersAge [] alice tNow 20 0 = [cxEntry] := by
        rfl
      rw [h]
      exact List.mem_singleton_self cxEntry)

/-! ### Claim C7 -/

/-- Inserting an element into a list places it before every element of equal
distance, so the elements at any fixed distance keep their relative order. -/
theorem filter_key_orderedInsert (q : ℚ) (x : Ranked) (l : List Ranked) :
    (List.orderedInsert rankedLE x l).filter (fun a => decide (a.distance = q)) =
      if x.distance = q then
        x :: l.filter (fun a => decide (a.distance = q))
      else l.filter (fun a => decide (a.distance = q)) := by
  induction l with
  | nil =>
      by_cases hq : x.distance = q <;>
        simp [List.orderedInsert, List.filter, hq]
  | cons b t ih =>
      unfold List.orderedInsert
      by_cases hxb : rankedLE x b
      · rw [if_pos hxb]
        by_cases hq : x.distance = q <;> simp [List.filter_cons, hq]
      · rw [if_neg hxb]
        have hlt : b.distance < x.distance := lt_of_not_le hxb
        rw [List.filter_cons, List.filter_cons, ih]
        by_cases hbq : b.distance = q
        · by_cases hq : x.distance = q
          · exfalso
            rw [hq] at hlt
            rw [hbq] at hlt
            exact lt_irrefl q hlt
          · simp [hbq, hq]
        · by_cases hq : x.distance = q <;> simp [hbq, hq]

/-- Stability of the sort: filtering the sorted pool at any fixed distance
value gives exactly the pool's own enumeration at that distance — ties keep
the order of the underlying user-table enumeration. -/
theorem filter_key_insertionSort (q : ℚ) (l : List Ranked) :
    (List.insertionSort rankedLE l).filter (fun a => decide (a.distance = q)) =
      l.filter (fun a => decide (a.distance = q)) := by
  induction l with
  | nil => rfl
  | cons b t ih =>
      unfold List.insertionSort
      rw [filter_key_orderedInsert, ih, List.filter_cons]
      by_cases hq : b.distance = q <;> simp [hq]

/-- JS `Math.round(d * 10) / 10` is monotone. -/
theorem roundDist_mono {a b : ℚ} (h : a ≤ b) : roundDist a ≤ roundDist b := by
  unfold roundDist jsRound
  have h1 : (⌊a * 10 + 1 / 2⌋ : ℤ) ≤ ⌊b * 10 + 1 / 2⌋ :=
    Int.floor_le_floor (by linarith)
  have h2 : ((⌊a * 10 + 1 / 2⌋ : ℤ) : ℚ) ≤ ((⌊b * 10 + 1 / 2⌋ : ℤ) : ℚ) :=
    Int.cast_le.mpr h1
  have h10 : (0 : ℚ) < 10 := by norm_num
  exact (div_le_div_iff_of_pos_right h10).mpr h2

/-- C7 (amended): the feed page is sorted ascending by the computed distance
(the comparator `a.distance - b.distance`), and ties are broken by the stable
sort's preservation of the underlying user-table enumeration order — not by
the candidate identifier.  For a fixed table order the output is therefore
deterministic; the counterexample shows the tie order follows the table, not
the identifiers. -/
theorem getDiscoveryFeed_sorted_stable (dist : Location → Location → ℚ)
    (users : List User) (swipes : List Swipe) (requester : User) (now : Int)
    (limit offset : Nat) :
    List.Pairwise (fun e1 e2 : FeedEntry => e1.distance_km ≤ e2.distance_km)
      (getDiscoveryFeed dist users swipes requester now limit offset) ∧
    ∀ (reqLoc : Location) (q : ℚ),
      (List.insertionSort rankedLE
          (rankedPool dist users requester now reqLoc)).filter
        (fun a => decide (a.distance = q)) =
      (rankedPool dist users requester now reqLoc).filter
        (fun a => decide (a.distance = q)) := by
  constructor
  · unfold getDiscoveryFeed
    rw [List.pairwise_map]
    have hsub : List.Sublist
        (((feedCandidates dist users swipes requester now).drop offset).take limit)
        (feedCandidates dist users swipes requester now) :=
      (List.take_sublist _ _).trans (List.drop_sublist _ _)
    have hp : List.Pairwise rankedLE
        (feedCandidates dist users swipes requester now) := by
      unfold feedCandidates
      rcases hl : requester.location with _ | reqLoc <;>
        rcases hb : requester.birth_date with _ | b0 <;>
        simp only [hl, hb]
      · exact List.Pairwise.nil
      · exact List.Pairwise.nil
      · exact List.Pairwise.nil
      · split
        · exact List.Pairwise.nil
        · exact List.Pairwise.sublist (List.filter_sublist _)
            (List.sorted_insertionSort rankedLE _)
    exact (hp.sublist hsub).imp (fun h => roundDist_mono h)
  · intro reqLoc q
    exact filter_key_insertionSort q _

/-- Counterexample for C7 as stated: candidates 3 and 2 are at the same
distance, yet the feed lists id 3 before id 2 (the user-table order), so
equal-distance ties are not ordered by the candidate identifier. -/
theorem getDiscoveryFeed_tie_not_id_ordered_cx :
    (getDiscoveryFeed distZero usersTie [] alice tNow 20 0).map
      (fun e => e.user_id) = [3, 2] ∧
    ((getDiscoveryFeed distZero usersTie [] alice tNow 20 0).map
        (fun e => e.distance_km)).getD 0 1 =
      ((getDiscoveryFeed distZero usersTie [] alice tNow 20 0).map
        (fun e => e.distance_km)).getD 1 2 :=
  ⟨by decide, rfl⟩

/-! ### Claim C8 -/

/-- C8 (amended): the returned page is the slice
candidates[offset : offset + limit] of the full ordered candidate list
(`getDiscoveryFeed` with limit the candidate count and offset 0); the pages
(limit 2, offset 0) and (limit 2, offset 2) concatenate to the page
(limit 4, offset 0) — the first four entries, not the five-entry
(limit 5, offset 0) page the claim names — and an offset at or beyond the
candidate count yields the empty page rather than an error. -/
theorem getDiscoveryFeed_pagination_slice (dist : Location → Location → ℚ)
    (users : List User) (swipes : List Swipe) (requester : User) (now : Int)
    (limit offset : Nat) :
    (getDiscoveryFeed dist users swipes requester now limit offset =
      ((getDiscoveryFeed dist users swipes requester now
          (feedCandidates dist users swipes requester now).length 0).drop
        offset).take limit) ∧
    (getDiscoveryFeed dist users swipes requester now 2 0 ++
        getDiscoveryFeed dist users swipes requester now 2 2 =
      getDiscoveryFeed dist users swipes requester now 4 0) ∧
    ((feedCandidates dist users swipes requester now).length ≤ offset →
      getDiscoveryFeed dist users swipes requester now limit offset = []) := by
  refine ⟨?_, ?_, ?_⟩
  · unfold getDiscoveryFeed
    rw [List.drop_zero, List.take_length, ← List.map_drop, ← List.map_take]
  · unfold getDiscoveryFeed
    rw [← List.map_append]
    congr 1
    rw [(by norm_num : (4 : Nat) = 2 + 2), List.take_add]
    rw [List.drop_zero]
  · intro h
    unfold getDiscoveryFeed
    rw [List.drop_eq_nil_of_le h]
    simp

/-- Witness for C8 (amended): an offset far beyond the five-candidate result
yields the empty page. -/
theorem getDiscoveryFeed_pagination_slice_witness :
    getDiscoveryFeed distZero usersFive [] alice tNow 3 99 = [] :=
  (getDiscoveryFeed_pagination_slice distZero usersFive [] alice tNow 3 99).2.2
    (by decide)

/-- Counterexample for C8 as stated: over five eligible candidates the two
limit-2 pages concatenate to the four ids [2, 3, 4, 5], while the
limit-5 page is [2, 3, 4, 5, 6] — the concatenation misses the fifth entry,
so it does not equal `getDiscoveryFeed(R, limit=5, offset=0)`. -/
theorem getDiscoveryFeed_pages_concat_cx :
    ((getDiscoveryFeed distZero usersFive [] alice tNow 2 0 ++
        getDiscoveryFeed distZero usersFive [] alice tNow 2 2).map
      (fun e => e.user_id) = [2, 3, 4, 5]) ∧
    ((getDiscoveryFeed distZero usersFive [] alice tNow 5 0).map
      (fun e => e.user_id) = [2, 3, 4, 5, 6]) ∧
    getDiscoveryFeed distZero usersFive [] alice tNow 2 0 ++
        getDiscoveryFeed distZero usersFive [] alice tNow 2 2 ≠
      getDiscoveryFeed distZero usersFive [] alice tNow 5 0 := by
  refine ⟨by decide, by decide, fun h => ?_⟩
  exact absurd (congrArg (List.map (fun e => e.user_id)) h) (by decide)

/-! ### Claim C9 -/

/-- C9: `sendMessage` fails with Unauthorized whenever the sender is neither
participant of the match; for a participant of an inactive match it fails
with the distinct InactiveMatch error; it succeeds — appending exactly one
message — precisely when the sender is a participant and the match is
active. -/
theorem sendMessage_auth_spec (db : DB) (now : Int) (mid sender : Nat)
    (content mtype : String) (m : MatchRec)
    (hFind : db.matchRows.find? (fun r => r.id == mid) = some m) :
    ((sender ≠ m.user1_id ∧ sender ≠ m.user2_id) →
      sendMessage db now mid sender content mtype = .error .unauthorized) ∧
    ((sender = m.user1_id ∨ sender = m.user2_id) → m.is_active = false →
      sendMessage db now mid sender content mtype = .error .inactiveMatch) ∧
    ((sender = m.user1_id ∨ sender = m.user2_id) → m.is_active = true →
      ∃ db2, sendMessage db now mid sender content mtype = .ok (db.nextId, db2) ∧
        db2.messages = db.messages ++
          [{ id := db.nextId, match_id := mid, sender_id := sender,
             content := content, message_type := mtype, is_read := false,
             sent_at := now }]) ∧
    (∀ r, sendMessage db now mid sender content mtype = .ok r →
      (sender = m.user1_id ∨ sender = m.user2_id) ∧ m.is_active = true) := by
  unfold sendMessage
  rw [hFind]
  dsimp only
  refine ⟨?_, ?_, ?_, ?_⟩
  · intro h
    have hb1 : (m.user1_id == sender) = false :=
      beq_eq_false_iff_ne.mpr (Ne.symm h.1)
    have hb2 : (m.user2_id == sender) = false :=
      beq_eq_false_iff_ne.mpr (Ne.symm h.2)
    simp [hb1, hb2]
  · intro hp hact
    have hcond : (!(m.user1_id == sender) && !(m.user2_id == sender)) = false := by
      rcases hp with hp | hp
      · have : (m.user1_id == sender) = true := beq_iff_eq.mpr hp.symm
        simp [this]
      · have : (m.user2_id == sender) = true := beq_iff_eq.mpr hp.symm
        simp [this]
    simp [hcond, hact]
  · intro hp hact
    have hcond : (!(m.user1_id == sender) && !(m.user2_id == sender)) = false := by
      rcases hp with hp | hp
      · have : (m.user1_id == sender) = true := beq_iff_eq.mpr hp.symm
        simp [this]
      · have : (m.user2_id == sender) = true := beq_iff_eq.mpr hp.symm
        simp [this]
    rw [hcond, if_neg Bool.false_ne_true, hact, Bool.not_true,
      if_neg Bool.false_ne_true]
    exact ⟨_, rfl, rfl⟩
  · intro r hr
    by_cases h1 : sender = m.user1_id
    · by_cases hact : m.is_active = true
      · exact ⟨Or.inl h1, hact⟩
      · exfalso
        have hactf : m.is_active = false := by
          cases hma : m.is_active
          · rfl
          · exact absurd hma hact
        have hcond : (!(m.user1_id == sender) && !(m.user2_id == sender)) = false := by
          have : (m.user1_id == sender) = true := beq_iff_eq.mpr h1.symm
          simp [this]
        rw [hcond] at hr
        simp [hactf] at hr
    · by_cases h2 : sender = m.user2_id
      · by_cases hact : m.is_active = true
        · exact ⟨Or.inr h2, hact⟩
        · exfalso
          have hactf : m.is_active = false := by
            cases hma : m.is_active
            · rfl
            · exact absurd hma hact
          have hcond : (!(m.user1_id == sender) && !(m.user2_id == sender)) = false := by
            have : (m.user2_id == sender) = true := beq_iff_eq.mpr h2.symm
            simp [this]
          rw [hcond] at hr
          simp [hactf] at hr
      · exfalso
        have hb1 : (m.user1_id == sender) = false :=
          beq_eq_false_iff_ne.mpr (fun he => h1 he.symm)
        have hb2 : (m.user2_id == sender) = false :=
          beq_eq_false_iff_ne.mpr (fun he => h2 he.symm)
        rw [hb1, hb2] at hr
        simp at hr

/-- Witness for C9 at the concrete matches: a stranger (user 5) is rejected
with Unauthorized on the active match; participant 3 is rejected with
InactiveMatch on the inactive match (3, 4); participant 1 succeeds on the
active match (1, 2). -/
theorem sendMessage_auth_spec_witness :
    sendMessage dbMatches 9 0 5 "hi" "text" = .error .unauthorized ∧
    sendMessage dbMatches 9 1 3 "hi" "text" = .error .inactiveMatch ∧
    ∃ db2, sendMessage dbMatches 9 0 1 "hi" "text" = .ok (dbMatches.nextId, db2) ∧
      db2.messages = dbMatches.messages ++
        [{ id := dbMatches.nextId, match_id := 0, sender_id := 1,
           content := "hi", message_type := "text", is_read := false,
           sent_at := 9 }] :=
  ⟨(sendMessage_auth_spec dbMatches 9 0 5 "hi" "text"
      { id := 0, user1_id := 1, user2_id := 2, matched_at := 0,
        is_active := true, created_at := 0 } (by decide)).1 (by decide),
   (sendMessage_auth_spec dbMatches 9 1 3 "hi" "text"
      { id := 1, user1_id := 3, user2_id := 4, matched_at := 0,
        is_active := false, created_at := 0 } (by decide)).2.1
     (Or.inl rfl) rfl,
   (sendMessage_auth_spec dbMatches 9 0 1 "hi" "text"
      { id := 0, user1_id := 1, user2_id := 2, matched_at := 0,
        is_active := true, created_at := 0 } (by decide)).2.2.1
     (Or.inl rfl) rfl⟩

/-! ### Claim C10 -/

/-- C10: `markMessageAsRead(message_id)` patches only `is_read`, and does so
unconditionally: the function takes no caller, touches no other table, and
the updated message keeps every other field — unlike
`markConversationAsRead`, which marks only unread messages of the
conversation sent by the other participant, so a participant's own sent
messages are never touched by that path (final conjunct). -/
theorem markMessageAsRead_unconditional (db : DB) (mid : Nat) :
    (markMessageAsRead db mid).users = db.users ∧
    (markMessageAsRead db mid).swipes = db.swipes ∧
    (markMessageAsRead db mid).matchRows = db.matchRows ∧
    (markMessageAsRead db mid).notifications = db.notifications ∧
    (markMessageAsRead db mid).messages.length = db.messages.length ∧
    (∀ (i : Nat) (h1 : i < db.messages.length)
        (h2 : i < (markMessageAsRead db mid).messages.length),
      (((markMessageAsRead db mid).messages.get ⟨i, h2⟩).id,
       ((markMessageAsRead db mid).messages.get ⟨i, h2⟩).match_id,
       ((markMessageAsRead db mid).messages.get ⟨i, h2⟩).sender_id,
       ((markMessageAsRead db mid).messages.get ⟨i, h2⟩).content,
       ((markMessageAsRead db mid).messages.get ⟨i, h2⟩).message_type,
       ((markMessageAsRead db mid).messages.get ⟨i, h2⟩).sent_at,
       ((markMessageAsRead db mid).messages.get ⟨i, h2⟩).is_read) =
      ((db.messages.get ⟨i, h1⟩).id,
       (db.messages.get ⟨i, h1⟩).match_id,
       (db.messages.get ⟨i, h1⟩).sender_id,
       (db.messages.get ⟨i, h1⟩).content,
       (db.messages.get ⟨i, h1⟩).message_type,
       (db.messages.get ⟨i, h1⟩).sent_at,
       ((db.messages.get ⟨i, h1⟩).is_read ||
         ((db.messages.get ⟨i, h1⟩).id == mid)))) ∧
    (∀ (matchId uid : Nat) (m2 : MatchRec),
      db.matchRows.find? (fun r => r.id == matchId) = some m2 →
      m2.user1_id = uid → m2.user2_id ≠ uid →
      ∀ (i : Nat) (h1 : i < db.messages.length)
        (h2 : i < (markConversationAsRead db matchId uid).messages.length),
        (db.messages.get ⟨i, h1⟩).sender_id = uid →
        (markConversationAsRead db matchId uid).messages.get ⟨i, h2⟩ =
          db.messages.get ⟨i, h1⟩) := by
  refine ⟨rfl, rfl, rfl, rfl, List.length_map _ _, ?_, ?_⟩
  · intro i h1 h2
    have hget : (markMessageAsRead db mid).messages.get ⟨i, h2⟩ =
        (fun msg => if msg.id == mid then { msg with is_read := true } else msg)
          (db.messages.get ⟨i, h1⟩) := by
      unfold markMessageAsRead
      exact List.get_map _
    rw [hget]
    by_cases hc : db.messages[i].id = mid
    · simp [hc]
    · simp [hc]
  · intro matchId uid m2 hfind hm1 hm2 i h1 h2 hsender
    have hmsgs : (markConversationAsRead db matchId uid).messages =
        db.messages.map (fun msg =>
          if msg.match_id == matchId && msg.is_read == false &&
              msg.sender_id ==
                (if m2.user1_id == uid then m2.user2_id else m2.user1_id) then
            { msg with is_read := true }
          else msg) := by
      unfold markConversationAsRead
      rw [hfind]
    have hstep := List.get_of_eq hmsgs ⟨i, h2⟩
    rw [hstep, List.get_map]
    dsimp only
    have hu1 : (m2.user1_id == uid) = true := beq_iff_eq.mpr hm1
    have hother : (if m2.user1_id == uid then m2.user2_id else m2.user1_id) =
        m2.user2_id := by
      rw [hu1]
      rfl
    have hsf : ((db.messages.get ⟨i, h1⟩).sender_id ==
        (if m2.user1_id == uid then m2.user2_id else m2.user1_id)) = false := by
      rw [hother, hsender]
      exact beq_eq_false_iff_ne.mpr (fun he => hm2 he.symm)
    rw [hsf]
    simp

/-- Witness for C10 at the concrete database: marking message 3 as read
turns its is_read flag on while every other field and every other table is
untouched, and the scoped `markConversationAsRead(0, 1)` leaves the message
sent by user 1 untouched. -/
theorem markMessageAsRead_unconditional_witness :
    (markMessageAsRead dbMsgs 3).matchRows = dbMsgs.matchRows ∧
    (((markMessageAsRead dbMsgs 3).messages.get ⟨0, by decide⟩).id,
     ((markMessageAsRead dbMsgs 3).messages.get ⟨0, by decide⟩).match_id,
     ((markMessageAsRead dbMsgs 3).messages.get ⟨0, by decide⟩).sender_id,
     ((markMessageAsRead dbMsgs 3).messages.get ⟨0, by decide⟩).content,
     ((markMessageAsRead dbMsgs 3).messages.get ⟨0, by decide⟩).message_type,
     ((markMessageAsRead dbMsgs 3).messages.get ⟨0, by decide⟩).sent_at,
     ((markMessageAsRead dbMsgs 3).messages.get ⟨0, by decide⟩).is_read) =
      ((dbMsgs.messages.get ⟨0, by decide⟩).id,
       (dbMsgs.messages.get ⟨0, by decide⟩).match_id,
       (dbMsgs.messages.get ⟨0, by decide⟩).sender_id,
       (dbMsgs.messages.get ⟨0, by decide⟩).content,
       (dbMsgs.messages.get ⟨0, by decide⟩).message_type,
       (dbMsgs.messages.get ⟨0, by decide⟩).sent_at,
       ((dbMsgs.messages.get ⟨0, by decide⟩).is_read ||
         ((dbMsgs.messages.get ⟨0, by decide⟩).id == 3))) ∧
    (markConversationAsRead dbMsgs 0 1).messages.get ⟨0, by decide⟩ =
      dbMsgs.messages.get ⟨0, by decide⟩ :=
  ⟨(markMessageAsRead_unconditional dbMsgs 3).2.2.1,
   (markMessageAsRead_unconditional dbMsgs 3).2.2.2.2.2.1 0 (by decide)
     (by decide),
   (markMessageAsRead_unconditional dbMsgs 3).2.2.2.2.2.2 0 1
     { id := 0, user1_id := 1, user2_id := 2, matched_at := 0,
       is_active := true, created_at := 0 } (by decide) rfl (by decide) 0
     (by decide) (by decide) rfl⟩

end DatingApp
